import Mathlib

/-!
Verification development for a small 16-bit virtual machine (an LC-3
simulator written in C++, single file `lc3sim.cc`).

The machine state and all operations below are shallow embeddings of the
C++ source.  16-bit unsigned values (`uint16_t`) are modelled as `Nat`
with `% 65536` applied wherever the C++ performs an int-to-uint16_t
conversion (i.e. at every assignment into a register or memory cell).
Console state is made explicit: `input` is the stream of bytes pending on
stdin (nonempty exactly when the non-blocking `select` poll of
`CheckKeyInput` would report readiness), `output` is everything written
so far.  A fatal `std::abort()` is modelled by returning `none`.
-/

namespace LC3

/-- Number of cells of the memory array as declared in the source:
`std::array<uint16_t, UINT16_MAX> memory_;` — `UINT16_MAX` is 65535, so
the declared array has 65535 cells with valid indices 0..65534. -/
def MEMORY_CELLS : Nat := 65535

/-- An address `a` is a valid index of the declared memory array. -/
def addrInBounds (a : Nat) : Prop := a < MEMORY_CELLS

/-- Keyboard status port (enum MMIO, `KeyboardStatus = 0xFE00`). -/
def KeyboardStatus : Nat := 0xFE00

/-- Keyboard data port (enum MMIO, `KeyboardData = 0xFE02`). -/
def KeyboardData : Nat := 0xFE02

/-- Initial program counter (`constexpr uint16_t kPCStart = 0x3000`). -/
def kPCStart : Nat := 0x3000

/-- `uint16_t SignExtend(uint16_t x, int bitCount)` from the source:
if bit `bitCount-1` of `x` is set, OR in `0xFFFF << bitCount` (the result
is truncated to 16 bits by the `uint16_t` assignment). -/
def SignExtend (x : Nat) (bitCount : Nat) : Nat :=
  if (x >>> (bitCount - 1)) &&& 1 ≠ 0 then (x ||| (0xFFFF <<< bitCount)) % 65536 else x

/-- `uint16_t Swap16(uint16_t x) { return (x << 8) | (x >> 8); }` -/
def Swap16 (x : Nat) : Nat := ((x <<< 8) ||| (x >>> 8)) % 65536

/-- Machine state.  `memory` embeds `memory_` (cell contents by address),
`registers` embeds `registers_` (indices 0..7 = R0..R7, 8 = kPC,
9 = kCondition).  `input`/`output` model the console collaborator and
`running` the loop flag of `Run`. -/
structure Machine where
  memory : Nat → Nat
  registers : Nat → Nat
  input : List Nat
  output : List Nat
  running : Bool

/-- Pointwise array update, used for both `memory_[i] = v` and
`registers_[i] = v`. -/
def writeArr (f : Nat → Nat) (i v : Nat) : Nat → Nat :=
  fun j => if j = i then v else f j

/-- The condition value computed by `Simulator::UpdateFlags`:
kZero = 2 when the value is 0, kNegative = 4 when its bit 15 is set
(`registers_[r] >> 15` nonzero), else kPositive = 1. -/
def flagOf (v : Nat) : Nat := if v = 0 then 2 else if v >>> 15 ≠ 0 then 4 else 1

/-- `Simulator::UpdateFlags(uint16_t r)`: sets `registers_[kCondition]`
from the (already written) value of `registers_[r]`. -/
def UpdateFlags (regs : Nat → Nat) (r : Nat) : Nat → Nat :=
  writeArr regs 9 (flagOf (regs r))

/-- `Simulator::CheckKeyInput`: non-blocking `select` on stdin; true
exactly when a byte is pending. -/
def CheckKeyInput (input : List Nat) : Bool := !input.isEmpty

/-- `std::getchar()` against the modelled input stream: returns the next
byte and the rest; on end of input returns EOF (-1), whose cast to
`uint16_t` is 65535. -/
def getChar : List Nat → Nat × List Nat
  | [] => (65535, [])
  | c :: rest => (c % 256, rest)

/-- `Simulator::WriteMemory(uint16_t address, uint16_t x)`:
`memory_[address] = x;` (parameters truncated to 16 bits at the call
boundary by their `uint16_t` types). -/
def WriteMemory (m : Machine) (address x : Nat) : Machine :=
  { m with memory := writeArr m.memory (address % 65536) (x % 65536) }

/-- The keyboard-status refresh block inside `Simulator::ReadMemory`:
if `CheckKeyInput()` then `memory_[KeyboardStatus] = 1 << 15` and
`memory_[KeyboardData] = (uint16_t)getchar()`, else
`memory_[KeyboardStatus] = 0`. -/
def pollKeyboard (m : Machine) : Machine :=
  if CheckKeyInput m.input then
    { m with
      memory := writeArr (writeArr m.memory KeyboardStatus 32768) KeyboardData
                  ((getChar m.input).1 % 65536),
      input := (getChar m.input).2 }
  else
    { m with memory := writeArr m.memory KeyboardStatus 0 }

/-- `Simulator::ReadMemory(uint16_t address)`: when the address equals
`KeyboardStatus` the console is polled first (side effect on memory and
the input stream), then `memory_[address]` is returned. -/
def ReadMemory (m : Machine) (a : Nat) : Nat × Machine :=
  if a % 65536 = KeyboardStatus then
    ((pollKeyboard m).memory (a % 65536), pollKeyboard m)
  else
    (m.memory (a % 65536), m)

/-- The string walk of the PUTS trap (`case kPutS`): starting at
`&memory_[0] + registers_[kR0]`, putchar each word (cast to `char`,
i.e. its low byte) until a zero word.  The walk reads the array
directly, NOT through `ReadMemory`.  Fuel bounds the recursion. -/
def putsWalk (mem : Nat → Nat) : Nat → Nat → List Nat
  | _, 0 => []
  | a, fuel + 1 =>
    if mem a = 0 then [] else (mem a % 256) :: putsWalk mem (a + 1) fuel

/-- The string walk of the PUTSP trap (`case kPutSP`): each nonzero word
emits its low byte, then its high byte when that is nonzero.  Like
`putsWalk` it reads the array directly, NOT through `ReadMemory`. -/
def putspWalk (mem : Nat → Nat) : Nat → Nat → List Nat
  | _, 0 => []
  | a, fuel + 1 =>
    if mem a = 0 then []
    else (mem a &&& 255) ::
      ((if (mem a >>> 8) % 256 = 0 then [] else [(mem a >>> 8) % 256]) ++
        putspWalk mem (a + 1) fuel)

/-- Byte codes of the prompt printed by the IN trap
(the characters of the text `Enter a character: `). -/
def inPrompt : List Nat :=
  [69, 110, 116, 101, 114, 32, 97, 32, 99, 104, 97, 114, 97, 99, 116, 101, 114, 58, 32]

/-- Byte codes written by `std::puts` for the halt message (`HALT`
followed by the newline `puts` appends). -/
def haltMsg : List Nat := [72, 65, 76, 84, 10]

/-- One execution of the `switch (op)` body of `Simulator::Run` on an
already-fetched instruction word, with the program counter already
incremented by the fetch.  `none` models `std::abort()` (reserved opcode
13, return-from-interrupt opcode 8, and the unreachable default). -/
def execInstr (m : Machine) (instr : Nat) : Option Machine :=
  if instr >>> 12 = 0 then
    -- case kBranch
    if ((instr >>> 9) &&& 0x7) &&& m.registers 9 ≠ 0 then
      some { m with
             registers :=
               writeArr m.registers 8
                 ((m.registers 8 + SignExtend (instr &&& 0x1FF) 9) % 65536) }
    else some m
  else if instr >>> 12 = 1 then
    -- case kAdd
    some { m with
           registers :=
             UpdateFlags
               (writeArr m.registers ((instr >>> 9) &&& 0x7)
                 (if (instr >>> 5) &&& 0x1 ≠ 0 then
                   (m.registers ((instr >>> 6) &&& 0x7) + SignExtend (instr &&& 0x1F) 5) % 65536
                 else
                   (m.registers ((instr >>> 6) &&& 0x7) + m.registers (instr &&& 0x7)) % 65536))
               ((instr >>> 9) &&& 0x7) }
  else if instr >>> 12 = 2 then
    -- case kLoad
    some { (ReadMemory m ((m.registers 8 + SignExtend (instr &&& 0x1FF) 9) % 65536)).2 with
           registers :=
             UpdateFlags
               (writeArr
                 (ReadMemory m ((m.registers 8 + SignExtend (instr &&& 0x1FF) 9) % 65536)).2.registers
                 ((instr >>> 9) &&& 0x7)
                 ((ReadMemory m ((m.registers 8 + SignExtend (instr &&& 0x1FF) 9) % 65536)).1 % 65536))
               ((instr >>> 9) &&& 0x7) }
  else if instr >>> 12 = 3 then
    -- case kStore
    some (WriteMemory m ((m.registers 8 + SignExtend (instr &&& 0x1FF) 9) % 65536)
      (m.registers ((instr >>> 9) &&& 0x7)))
  else if instr >>> 12 = 4 then
    -- case kJumpRegister: R7 = PC first; note the source then does
    -- `registers_[kPC] += ...` in BOTH the JSR and the JSRR arm.
    some { m with
           registers :=
             (if (instr >>> 11) &&& 1 ≠ 0 then
               writeArr (writeArr m.registers 7 (m.registers 8 % 65536)) 8
                 ((writeArr m.registers 7 (m.registers 8 % 65536) 8 +
                   SignExtend (instr &&& 0x7FF) 11) % 65536)
             else
               writeArr (writeArr m.registers 7 (m.registers 8 % 65536)) 8
                 ((writeArr m.registers 7 (m.registers 8 % 65536) 8 +
                   writeArr m.registers 7 (m.registers 8 % 65536) ((instr >>> 6) &&& 0x7)) % 65536)) }
  else if instr >>> 12 = 5 then
    -- case kBitwiseAnd
    some { m with
           registers :=
             UpdateFlags
               (writeArr m.registers ((instr >>> 9) &&& 0x7)
                 (if (instr >>> 5) &&& 0x1 ≠ 0 then
                   (m.registers ((instr >>> 6) &&& 0x7) &&& SignExtend (instr &&& 0x1F) 5) % 65536
                 else
                   (m.registers ((instr >>> 6) &&& 0x7) &&& m.registers (instr &&& 0x7)) % 65536))
               ((instr >>> 9) &&& 0x7) }
  else if instr >>> 12 = 6 then
    -- case kLoadRegister
    some { (ReadMemory m ((m.registers ((instr >>> 6) &&& 0x7) +
             SignExtend (instr &&& 0x3F) 6) % 65536)).2 with
           registers :=
             UpdateFlags
               (writeArr
                 (ReadMemory m ((m.registers ((instr >>> 6) &&& 0x7) +
                   SignExtend (instr &&& 0x3F) 6) % 65536)).2.registers
                 ((instr >>> 9) &&& 0x7)
                 ((ReadMemory m ((m.registers ((instr >>> 6) &&& 0x7) +
                   SignExtend (instr &&& 0x3F) 6) % 65536)).1 % 65536))
               ((instr >>> 9) &&& 0x7) }
  else if instr >>> 12 = 7 then
    -- case kStoreRegister
    some (WriteMemory m ((m.registers ((instr >>> 6) &&& 0x7) + SignExtend (instr &&& 0x3F) 6) % 65536)
      (m.registers ((instr >>> 9) &&& 0x7)))
  else if instr >>> 12 = 8 then
    -- case kReturnFromInterrupt: std::abort()
    none
  else if instr >>> 12 = 9 then
    -- case kBitwiseNot
    some { m with
           registers :=
             UpdateFlags
               (writeArr m.registers ((instr >>> 9) &&& 0x7)
                 ((m.registers ((instr >>> 6) &&& 0x7) ^^^ 0xFFFF) % 65536))
               ((instr >>> 9) &&& 0x7) }
  else if instr >>> 12 = 10 then
    -- case kLoadIndirect: two chained ReadMemory calls
    some { (ReadMemory (ReadMemory m ((m.registers 8 + SignExtend (instr &&& 0x1FF) 9) % 65536)).2
             (ReadMemory m ((m.registers 8 + SignExtend (instr &&& 0x1FF) 9) % 65536)).1).2 with
           registers :=
             UpdateFlags
               (writeArr
                 (ReadMemory (ReadMemory m ((m.registers 8 + SignExtend (instr &&& 0x1FF) 9) % 65536)).2
                   (ReadMemory m ((m.registers 8 + SignExtend (instr &&& 0x1FF) 9) % 65536)).1).2.registers
                 ((instr >>> 9) &&& 0x7)
                 ((ReadMemory (ReadMemory m ((m.registers 8 + SignExtend (instr &&& 0x1FF) 9) % 65536)).2
                   (ReadMemory m ((m.registers 8 + SignExtend (instr &&& 0x1FF) 9) % 65536)).1).1 % 65536))
               ((instr >>> 9) &&& 0x7) }
  else if instr >>> 12 = 11 then
    -- case kStoreIndirect
    some (WriteMemory (ReadMemory m ((m.registers 8 + SignExtend (instr &&& 0x1FF) 9) % 65536)).2
      (ReadMemory m ((m.registers 8 + SignExtend (instr &&& 0x1FF) 9) % 65536)).1
      ((ReadMemory m ((m.registers 8 + SignExtend (instr &&& 0x1FF) 9) % 65536)).2.registers
        ((instr >>> 9) &&& 0x7)))
  else if instr >>> 12 = 12 then
    -- case kJump
    some { m with
           registers :=
             writeArr m.registers 8 (m.registers ((instr >>> 6) &&& 0x7) % 65536) }
  else if instr >>> 12 = 13 then
    -- case kReserved: std::abort()
    none
  else if instr >>> 12 = 14 then
    -- case kLoadEffectiveAddress
    some { m with
           registers :=
             UpdateFlags
               (writeArr m.registers ((instr >>> 9) &&& 0x7)
                 ((m.registers 8 + SignExtend (instr &&& 0x1FF) 9) % 65536))
               ((instr >>> 9) &&& 0x7) }
  else if instr >>> 12 = 15 then
    -- case kTrap: switch (instr & 0xFF)
    if instr &&& 0xFF = 0x20 then
      -- case kGetC
      some { m with
             registers := writeArr m.registers 0 ((getChar m.input).1 % 65536),
             input := (getChar m.input).2 }
    else if instr &&& 0xFF = 0x21 then
      -- case kOut
      some { m with output := m.output ++ [m.registers 0 % 256] }
    else if instr &&& 0xFF = 0x22 then
      -- case kPutS: direct array walk, no ReadMemory
      some { m with output := m.output ++ putsWalk m.memory (m.registers 0) 65536 }
    else if instr &&& 0xFF = 0x23 then
      -- case kIn
      some { m with
             registers := writeArr m.registers 0 ((getChar m.input).1 % 65536),
             input := (getChar m.input).2,
             output := m.output ++ inPrompt ++ [(getChar m.input).1 % 256] }
    else if instr &&& 0xFF = 0x24 then
      -- case kPutSP: direct array walk, no ReadMemory
      some { m with output := m.output ++ putspWalk m.memory (m.registers 0) 65536 }
    else if instr &&& 0xFF = 0x25 then
      -- case kHalt
      some { m with output := m.output ++ haltMsg, running := false }
    else
      -- no default case in the trap switch: fall through, no action
      some m
  else
    -- default: std::abort() (unreachable for 16-bit instruction words)
    none

/-- Address the next fetch reads from: the current program counter
(`ReadMemory(registers_[kPC]++)` indexes `memory_` at the old PC). -/
def fetchAddress (m : Machine) : Nat := m.registers 8

/-- One iteration of the `while (running)` loop of `Simulator::Run`:
fetch (with the keyboard-poll side effect of `ReadMemory` and the
post-increment of the program counter), then decode and execute. -/
def step (m : Machine) : Option Machine :=
  execInstr
    { (ReadMemory m (fetchAddress m)).2 with
      registers := writeArr (ReadMemory m (fetchAddress m)).2.registers 8
        ((fetchAddress m + 1) % 65536) }
    (ReadMemory m (fetchAddress m)).1

/-- Grouping of consecutive file bytes into 16-bit words exactly as
`fread` with element size `sizeof(uint16_t)` delivers them on the
little-endian host: pairs `b0, b1` become `b0 + 256*b1`; a trailing
lone byte is not a complete element and is dropped. -/
def bytesToWords : List Nat → List Nat
  | b0 :: b1 :: rest => (b0 % 256 + 256 * (b1 % 256)) :: bytesToWords rest
  | _ => []

/-- Writing a list of words into memory at consecutive addresses,
modelling the pointer walk `*p = ...; ++p;`. -/
def writeList : (Nat → Nat) → Nat → List Nat → (Nat → Nat)
  | mem, _, [] => mem
  | mem, a, w :: ws => writeList (writeArr mem a w) (a + 1) ws

/-- `Simulator::ReadImage` on the bytes of the opened file: the first
word (byte-swapped) is the load origin; at most
`UINT16_MAX - memoryOrigin` = `65535 - origin` further words are read
by `fread` and byte-swapped in place starting at `&memory_[0] + origin`.
The function performs no error checking whatsoever and its only return
statement is `return true;`, so the second component is always `true`
— for a missing/unreadable file, for a zero-length file (whose origin
word is never read, leaving `memoryOrigin` uninitialized and reading no
data words), and for every other input alike. -/
def ReadImage (mem : Nat → Nat) (fileBytes : List Nat) : (Nat → Nat) × Bool :=
  match bytesToWords fileBytes with
  | [] => (mem, true)
  | w :: ws =>
    (writeList mem (Swap16 w) ((ws.take (65535 - Swap16 w)).map Swap16), true)

/-- The set of opcodes whose case in the switch ends with an
`UpdateFlags` call: ADD (1), AND (5), NOT (9), LD (2), LDI (10),
LDR (6), LEA (14). -/
def updatesFlags (op : Nat) : Bool :=
  op == 1 || op == 5 || op == 9 || op == 2 || op == 10 || op == 6 || op == 14

/-- A machine with zeroed memory and registers, empty console streams. -/
def zmachine : Machine :=
  { memory := fun _ => 0, registers := fun _ => 0, input := [], output := [], running := true }

/-- State for exercising JSRR: PC already advanced to 0x3001 by the
fetch of the JSRR instruction, base register R1 holding 0x4000. -/
def mC1 : Machine :=
  { zmachine with registers := writeArr (writeArr zmachine.registers 8 0x3001) 1 0x4000 }

/-- State with R1 = 0xFFFF, about to execute `JMP R1`. -/
def mC2 : Machine :=
  { zmachine with registers := writeArr zmachine.registers 1 0xFFFF }

/-- State about to execute TRAP PUTS with R0 = 0xFE00 (the keyboard
status port) and one byte pending on the console. -/
def mC5 : Machine :=
  { zmachine with registers := writeArr zmachine.registers 0 0xFE00, input := [65] }

/-- State with one pending console byte (66). -/
def mC5p : Machine := { zmachine with input := [66] }

/-- State whose registers all hold 1 (condition register = kPositive). -/
def mC6 : Machine := { zmachine with registers := fun _ => 1 }

/-- Result of executing `ADD R0, R0, #1` (0x1021) on `mC6`. -/
def mC6res : Machine := (execInstr mC6 0x1021).getD mC6

/-- State whose memory holds 0xD000 (reserved opcode 13) everywhere. -/
def mC7 : Machine := { zmachine with memory := fun _ => 0xD000 }

/-- State whose registers all hold 5. -/
def mC8 : Machine := { zmachine with registers := fun _ => 5 }

/-! Helper lemmas -/

theorem writeArr_same (f : Nat → Nat) (i v : Nat) : writeArr f i v i = v := by
  simp [writeArr]

theorem writeArr_ne (f : Nat → Nat) (i v j : Nat) (h : j ≠ i) : writeArr f i v j = f j := by
  simp [writeArr, h]

theorem flagOf_cases (v : Nat) : flagOf v = 1 ∨ flagOf v = 2 ∨ flagOf v = 4 := by
  unfold flagOf
  split
  · exact Or.inr (Or.inl rfl)
  · split
    · exact Or.inr (Or.inr rfl)
    · exact Or.inl rfl

theorem updateFlags_facts (regs : Nat → Nat) (r0 v : Nat) (h : r0 ≤ 7) :
    UpdateFlags (writeArr regs r0 v) r0 9 = flagOf (UpdateFlags (writeArr regs r0 v) r0 r0) ∧
    (UpdateFlags (writeArr regs r0 v) r0 9 = 1 ∨ UpdateFlags (writeArr regs r0 v) r0 9 = 2 ∨
     UpdateFlags (writeArr regs r0 v) r0 9 = 4) := by
  have h9 : r0 ≠ 9 := by omega
  have e1 : UpdateFlags (writeArr regs r0 v) r0 9 = flagOf v := by
    simp [UpdateFlags, writeArr]
  have e2 : UpdateFlags (writeArr regs r0 v) r0 r0 = v := by
    simp [UpdateFlags, writeArr, h9]
  rw [e1, e2]
  exact ⟨rfl, flagOf_cases v⟩

theorem ReadMemory_registers_eq (m : Machine) (a : Nat) :
    (ReadMemory m a).2.registers = m.registers := by
  unfold ReadMemory pollKeyboard
  split
  · split <;> rfl
  · rfl

/-! Claim theorems -/

/-- C1: the claim states that JSRR (JSR with long-flag clear) sets the
program counter to the base register value.  The source instead executes
`registers_[kPC] += registers_[r1]`.  Evaluated at the failing input:
from post-fetch PC = 0x3001 with R1 = 0x4000, executing JSRR R1
(instruction word 0x4040) leaves PC = 0x7001 = 0x3001 + 0x4000, not the
claimed 0x4000. -/
theorem C1_thm :
    (execInstr mC1 0x4040).map (fun mm => mm.registers 8) = some 0x7001 ∧
    (0x7001 : Nat) ≠ 0x4000 := ⟨rfl, by decide⟩

/-- C2: the claim asserts every engine memory access hits a valid cell
of a 65,536-cell array.  The declared array
`std::array<uint16_t, UINT16_MAX>` has only `MEMORY_CELLS` = 65535
cells, and the fetch address 0xFFFF is reachable: executing `JMP R1`
with R1 = 0xFFFF makes the next fetch read index 0xFFFF, which is out
of bounds for the declared array. -/
theorem C2_thm :
    MEMORY_CELLS = 65535 ∧
    (execInstr mC2 0xC040).map fetchAddress = some 0xFFFF ∧
    ¬ addrInBounds 0xFFFF :=
  ⟨rfl, rfl, by simp [addrInBounds, MEMORY_CELLS]⟩

/-- C3: the claim says a missing/unreadable file or a zero-length image
yields a failure result and execution does not begin.  `ReadImage`
performs no error checking and its only return statement is
`return true;`: the load reports success for every input, in particular
for the empty (zero-length) file, so `main`'s
`if (!sim.ReadImage(image)) exit(2);` can never take the failure path. -/
theorem C3_thm (mem : Nat → Nat) (fileBytes : List Nat) :
    (ReadImage mem fileBytes).2 = true := by
  unfold ReadImage
  split <;> rfl

/-- C4: the claim says a loaded image round-trips including when the
last word lands on the top address 0xFFFF.  For the image with origin
0xFFFE and words [0x1234, 0x5678] (big-endian file bytes
FF FE 12 34 56 78), the loader reads at most
`UINT16_MAX - origin` = 1 word, so memory[0xFFFE] = 0x1234 but the word
destined for 0xFFFF is dropped: memory[0xFFFF] keeps its old value 0,
not 0x5678. -/
theorem C4_thm :
    (ReadImage (fun _ => 0) [0xFF, 0xFE, 0x12, 0x34, 0x56, 0x78]).1 0xFFFE = 0x1234 ∧
    (ReadImage (fun _ => 0) [0xFF, 0xFE, 0x12, 0x34, 0x56, 0x78]).1 0xFFFF = 0 ∧
    (0 : Nat) ≠ 0x5678 := ⟨rfl, rfl, by decide⟩

/-- C7: fetching an instruction whose top 4 bits are 13 (reserved) or
8 (return from interrupt) reaches `std::abort()` (modelled `none`):
the step relation produces no successor state, so execution never
continues to the next fetch. -/
theorem C7_thm (m : Machine)
    (h : (ReadMemory m (fetchAddress m)).1 >>> 12 = 13 ∨
         (ReadMemory m (fetchAddress m)).1 >>> 12 = 8) :
    step m = none := by
  unfold step execInstr
  rcases h with h | h <;> simp [h]

/-- Witness for C7: a machine whose memory holds 0xD000 (reserved
opcode 13) everywhere aborts on the next step. -/
theorem C7_witness : step mC7 = none := C7_thm mC7 (Or.inl rfl)

/-- C8: executing any JSR/JSRR instruction (top 4 bits = 4) stores into
R7 the program-counter value after the fetch increment, i.e. the
address of the word following the instruction, before the jump target
is applied. -/
theorem C8_thm (m : Machine) (instr : Nat) (h4 : instr >>> 12 = 4)
    (h16 : m.registers 8 < 65536) :
    (execInstr m instr).map (fun mm => mm.registers 7) = some (m.registers 8) := by
  unfold execInstr
  simp only [h4]
  norm_num
  split <;> simp [writeArr, Nat.mod_eq_of_lt h16]

/-- Witness for C8: with all registers at 5, JSR (0x4800) stores 5
(the incremented PC) into R7. -/
theorem C8_witness :
    (execInstr mC8 0x4800).map (fun mm => mm.registers 7) = some 5 :=
  C8_thm mC8 0x4800 rfl (by decide)

/-- C9: a TRAP instruction whose vector is none of 0x20..0x25 falls
through the trap switch with no action: the machine state is returned
unchanged (registers, memory, console streams, running flag), and
execution continues rather than failing. -/
theorem C9_thm (m : Machine) (instr : Nat) (h15 : instr >>> 12 = 15)
    (hv : instr &&& 0xFF ≠ 0x20 ∧ instr &&& 0xFF ≠ 0x21 ∧ instr &&& 0xFF ≠ 0x22 ∧
          instr &&& 0xFF ≠ 0x23 ∧ instr &&& 0xFF ≠ 0x24 ∧ instr &&& 0xFF ≠ 0x25) :
    execInstr m instr = some m := by
  obtain ⟨h1, h2, h3, h4, h5, h6⟩ := hv
  unfold execInstr
  simp [h15, h1, h2, h3, h4, h5, h6]

/-- Witness for C9: TRAP 0x26 is a no-op on the zero machine. -/
theorem C9_witness : execInstr zmachine 0xF026 = some zmachine :=
  C9_thm zmachine 0xF026 rfl (by decide)

/-- C5 counterexample: the claim includes the PUTS string walk among the
reads of 0xFE00 that poll the console.  Executing TRAP PUTS (0xF022)
with R0 = 0xFE00 and a byte pending on the console reads the cell at
0xFE00 (the walk's termination test) yet performs no poll: the status
cell stays 0 (not the claimed 0x8000), the data cell stays 0, and the
pending byte 65 is not consumed. -/
theorem C5_counterexample :
    (execInstr mC5 0xF022).map (fun mm => (mm.memory 0xFE00, mm.memory 0xFE02, mm.input)) =
      some (0, 0, [65]) ∧
    (0 : Nat) ≠ 0x8000 := ⟨rfl, by decide⟩

/-- C5 (amended): every memory read that goes through `ReadMemory`
(instruction fetch, LD, LDR, both indirections of LDI, and the address
fetch of STI) at the keyboard-status address first polls the console:
with pending input the status cell is set to 0x8000 and the next
character is copied into the data cell 0xFE02 (and consumed) before the
value is returned; with no pending input the status cell is set to 0
and the data cell is left unchanged.  The PUTS and PUTSP string walks,
by contrast, read the memory array directly and never poll: they leave
the console input and the status cell untouched. -/
theorem C5_thm (m : Machine) (c : Nat) (rest : List Nat) :
    (m.input = c :: rest →
      ((ReadMemory m 0xFE00).1 = 0x8000 ∧
       (ReadMemory m 0xFE00).2.memory 0xFE00 = 0x8000 ∧
       (ReadMemory m 0xFE00).2.memory 0xFE02 = c % 256 ∧
       (ReadMemory m 0xFE00).2.input = rest)) ∧
    (m.input = [] →
      ((ReadMemory m 0xFE00).1 = 0 ∧
       (ReadMemory m 0xFE00).2.memory 0xFE00 = 0 ∧
       (ReadMemory m 0xFE00).2.memory 0xFE02 = m.memory 0xFE02 ∧
       (ReadMemory m 0xFE00).2.input = m.input)) ∧
    (∀ instr, instr >>> 12 = 15 → instr &&& 0xFF = 0x22 →
      (execInstr m instr).map Machine.input = some m.input ∧
      (execInstr m instr).map (fun mm => mm.memory 0xFE00) = some (m.memory 0xFE00)) ∧
    (∀ instr, instr >>> 12 = 15 → instr &&& 0xFF = 0x24 →
      (execInstr m instr).map Machine.input = some m.input ∧
      (execInstr m instr).map (fun mm => mm.memory 0xFE00) = some (m.memory 0xFE00)) := by
  have hcm : c % 256 % 65536 = c % 256 :=
    Nat.mod_eq_of_lt (lt_of_lt_of_le (Nat.mod_lt c (by norm_num)) (by norm_num))
  refine ⟨fun hin => ?_, fun hin => ?_, fun instr h15 h22 => ?_, fun instr h15 h24 => ?_⟩
  · simp [ReadMemory, pollKeyboard, CheckKeyInput, getChar, writeArr,
      KeyboardStatus, KeyboardData, hin, hcm]
  · simp [ReadMemory, pollKeyboard, CheckKeyInput, writeArr,
      KeyboardStatus, KeyboardData, hin]
  · unfold execInstr
    simp [h15, h22]
  · unfold execInstr
    simp [h15, h24]

/-- Witness for C5: a pending byte 66 is reported ready and copied into
the data cell; with no pending input the status reads 0. -/
theorem C5_witness :
    (ReadMemory mC5p 0xFE00).1 = 0x8000 ∧
    (ReadMemory mC5p 0xFE00).2.memory 0xFE02 = 66 ∧
    (ReadMemory mC5p 0xFE00).2.input = [] ∧
    (ReadMemory zmachine 0xFE00).1 = 0 := by
  have h1 := (C5_thm mC5p 66 []).1 rfl
  have h2 := (C5_thm zmachine 66 []).2.1 rfl
  exact ⟨h1.1, h1.2.2.1, h1.2.2.2, h2.1⟩

/-- C10: stores to the memory-mapped addresses 0xFE00/0xFE02 are plain
writes: `WriteMemory` changes exactly the addressed cell and touches
neither registers nor the console streams nor the running flag; the ST,
STR and STI cases of the dispatcher perform their write through
`WriteMemory`; and whatever value was stored into the status cell, the
next read of the status address returns (and stores) the poll result
instead of that value. -/
theorem C10_thm (m : Machine) (a v : Nat) (ha : a = 0xFE00 ∨ a = 0xFE02)
    (hv : v < 65536) :
    (WriteMemory m a v).memory a = v ∧
    (∀ x, x ≠ a → (WriteMemory m a v).memory x = m.memory x) ∧
    (WriteMemory m a v).registers = m.registers ∧
    (WriteMemory m a v).input = m.input ∧
    (WriteMemory m a v).output = m.output ∧
    (WriteMemory m a v).running = m.running ∧
    (ReadMemory (WriteMemory m 0xFE00 v) 0xFE00).1 =
      (if CheckKeyInput m.input then 0x8000 else 0) ∧
    (ReadMemory (WriteMemory m 0xFE00 v) 0xFE00).2.memory 0xFE00 =
      (if CheckKeyInput m.input then 0x8000 else 0) ∧
    (∀ instr, instr >>> 12 = 3 →
      execInstr m instr =
        some (WriteMemory m ((m.registers 8 + SignExtend (instr &&& 0x1FF) 9) % 65536)
          (m.registers ((instr >>> 9) &&& 0x7)))) ∧
    (∀ instr, instr >>> 12 = 7 →
      execInstr m instr =
        some (WriteMemory m ((m.registers ((instr >>> 6) &&& 0x7) +
            SignExtend (instr &&& 0x3F) 6) % 65536)
          (m.registers ((instr >>> 9) &&& 0x7)))) ∧
    (∀ instr, instr >>> 12 = 11 →
      execInstr m instr =
        some (WriteMemory (ReadMemory m ((m.registers 8 + SignExtend (instr &&& 0x1FF) 9) % 65536)).2
          (ReadMemory m ((m.registers 8 + SignExtend (instr &&& 0x1FF) 9) % 65536)).1
          ((ReadMemory m ((m.registers 8 + SignExtend (instr &&& 0x1FF) 9) % 65536)).2.registers
            ((instr >>> 9) &&& 0x7)))) := by
  have ha' : a % 65536 = a := by rcases ha with h | h <;> subst h <;> norm_num
  refine ⟨?_, fun x hx => ?_, rfl, rfl, rfl, rfl, ?_, ?_,
    fun instr h3 => ?_, fun instr h7 => ?_, fun instr h11 => ?_⟩
  · simp [WriteMemory, writeArr, ha', Nat.mod_eq_of_lt hv]
  · simp [WriteMemory, writeArr, ha', hx]
  · by_cases hk : CheckKeyInput m.input <;>
      simp [ReadMemory, pollKeyboard, WriteMemory, writeArr,
        KeyboardStatus, KeyboardData, hk]
  · by_cases hk : CheckKeyInput m.input <;>
      simp [ReadMemory, pollKeyboard, WriteMemory, writeArr,
        KeyboardStatus, KeyboardData, hk]
  · unfold execInstr
    simp [h3]
  · unfold execInstr
    simp [h7]
  · unfold execInstr
    simp [h11]

/-- Witness for C10: storing 7 into the status cell is a plain write,
and the next read of the status address (no pending input) returns and
stores the poll result 0, not the stored 7. -/
theorem C10_witness :
    (WriteMemory zmachine 0xFE00 7).memory 0xFE00 = 7 ∧
    (ReadMemory (WriteMemory zmachine 0xFE00 7) 0xFE00).1 = 0 := by
  have H := C10_thm zmachine 0xFE00 7 (Or.inl rfl) (by decide)
  exact ⟨H.1, H.2.2.2.2.2.2.1.trans (by decide)⟩


/-- C6 counterexample: the claim asserts unconditionally that after
every executed instruction the condition register holds one of the
three flags.  The constructor never initializes `registers_[kCondition]`
(only the PC is set), and instructions that do not update flags preserve
whatever value is there: executing BR (word 0) on a machine whose
condition register holds 0 leaves it 0, which is none of
kPositive = 1, kZero = 2, kNegative = 4. -/
theorem C6_counterexample :
    (execInstr zmachine 0).map (fun mm => mm.registers 9) = some 0 ∧
    ¬ ((0 : Nat) = 1 ∨ (0 : Nat) = 2 ∨ (0 : Nat) = 4) := ⟨rfl, by decide⟩

/-- C6 (amended): if the condition register holds one of the three
flags {kPositive = 1, kZero = 2, kNegative = 4} before an instruction
executes, it still holds one of them afterwards; the flag-updating
instructions (ADD, AND, NOT, LD, LDI, LDR, LEA) set it to exactly
`flagOf` of the value just written to the destination register (2 when
the value is 0, 4 when its high bit is set, 1 otherwise); and BR, JMP,
JSR/JSRR, ST, STI, STR and TRAP leave it unchanged.  The unconditional
form of the claim fails only because the condition register is never
initialized. -/
theorem C6_thm (m m' : Machine) (instr : Nat) (h : execInstr m instr = some m') :
    ((m.registers 9 = 1 ∨ m.registers 9 = 2 ∨ m.registers 9 = 4) →
      (m'.registers 9 = 1 ∨ m'.registers 9 = 2 ∨ m'.registers 9 = 4)) ∧
    (updatesFlags (instr >>> 12) = true →
      m'.registers 9 = flagOf (m'.registers ((instr >>> 9) &&& 0x7))) ∧
    (updatesFlags (instr >>> 12) = false → m'.registers 9 = m.registers 9) := by
  have hb : (instr >>> 9) &&& 0x7 ≤ 7 := Nat.and_le_right
  by_cases c0 : instr >>> 12 = 0
  -- BR
  · unfold execInstr at h
    simp only [c0, reduceIte] at h
    split at h
    · injection h with h; subst h
      refine ⟨fun hc => ?_, fun hu => ?_, fun _ => ?_⟩
      · simpa [writeArr] using hc
      · rw [c0] at hu; exact absurd hu (by decide)
      · simp [writeArr]
    · injection h with h; subst h
      refine ⟨fun hc => hc, fun hu => ?_, fun _ => rfl⟩
      rw [c0] at hu; exact absurd hu (by decide)
  by_cases c1 : instr >>> 12 = 1
  -- ADD
  · unfold execInstr at h
    simp only [c1, reduceIte] at h
    injection h with h; subst h
    refine ⟨fun _ => (updateFlags_facts _ _ _ hb).2, fun _ => (updateFlags_facts _ _ _ hb).1,
      fun hu => ?_⟩
    rw [c1] at hu; exact absurd hu (by decide)
  by_cases c2 : instr >>> 12 = 2
  -- LD
  · unfold execInstr at h
    simp only [c2, reduceIte] at h
    injection h with h; subst h
    refine ⟨fun _ => (updateFlags_facts _ _ _ hb).2, fun _ => (updateFlags_facts _ _ _ hb).1,
      fun hu => ?_⟩
    rw [c2] at hu; exact absurd hu (by decide)
  by_cases c3 : instr >>> 12 = 3
  -- ST
  · unfold execInstr at h
    simp only [c3, reduceIte] at h
    injection h with h; subst h
    refine ⟨fun hc => hc, fun hu => ?_, fun _ => rfl⟩
    rw [c3] at hu; exact absurd hu (by decide)
  by_cases c4 : instr >>> 12 = 4
  -- JSR/JSRR
  · unfold execInstr at h
    simp only [c4, reduceIte] at h
    injection h with h; subst h
    refine ⟨fun hc => ?_, fun hu => ?_, fun _ => ?_⟩
    · simpa [apply_ite (fun f : Nat → Nat => f 9), writeArr] using hc
    · rw [c4] at hu; exact absurd hu (by decide)
    · simp [apply_ite (fun f : Nat → Nat => f 9), writeArr]
  by_cases c5 : instr >>> 12 = 5
  -- AND
  · unfold execInstr at h
    simp only [c5, reduceIte] at h
    injection h with h; subst h
    refine ⟨fun _ => (updateFlags_facts _ _ _ hb).2, fun _ => (updateFlags_facts _ _ _ hb).1,
      fun hu => ?_⟩
    rw [c5] at hu; exact absurd hu (by decide)
  by_cases c6 : instr >>> 12 = 6
  -- LDR
  · unfold execInstr at h
    simp only [c6, reduceIte] at h
    injection h with h; subst h
    refine ⟨fun _ => (updateFlags_facts _ _ _ hb).2, fun _ => (updateFlags_facts _ _ _ hb).1,
      fun hu => ?_⟩
    rw [c6] at hu; exact absurd hu (by decide)
  by_cases c7 : instr >>> 12 = 7
  -- STR
  · unfold execInstr at h
    simp only [c7, reduceIte] at h
    injection h with h; subst h
    refine ⟨fun hc => hc, fun hu => ?_, fun _ => rfl⟩
    rw [c7] at hu; exact absurd hu (by decide)
  by_cases c8 : instr >>> 12 = 8
  -- return from interrupt: abort
  · unfold execInstr at h
    simp only [c8, reduceIte] at h
    exact Option.noConfusion h
  by_cases c9 : instr >>> 12 = 9
  -- NOT
  · unfold execInstr at h
    simp only [c9, reduceIte] at h
    injection h with h; subst h
    refine ⟨fun _ => (updateFlags_facts _ _ _ hb).2, fun _ => (updateFlags_facts _ _ _ hb).1,
      fun hu => ?_⟩
    rw [c9] at hu; exact absurd hu (by decide)
  by_cases c10 : instr >>> 12 = 10
  -- LDI
  · unfold execInstr at h
    simp only [c10, reduceIte] at h
    injection h with h; subst h
    refine ⟨fun _ => (updateFlags_facts _ _ _ hb).2, fun _ => (updateFlags_facts _ _ _ hb).1,
      fun hu => ?_⟩
    rw [c10] at hu; exact absurd hu (by decide)
  by_cases c11 : instr >>> 12 = 11
  -- STI
  · unfold execInstr at h
    simp only [c11, reduceIte] at h
    injection h with h; subst h
    refine ⟨fun hc => ?_, fun hu => ?_, fun _ => ?_⟩
    · simpa [WriteMemory, ReadMemory_registers_eq] using hc
    · rw [c11] at hu; exact absurd hu (by decide)
    · simp [WriteMemory, ReadMemory_registers_eq]
  by_cases c12 : instr >>> 12 = 12
  -- JMP
  · unfold execInstr at h
    simp only [c12, reduceIte] at h
    injection h with h; subst h
    refine ⟨fun hc => ?_, fun hu => ?_, fun _ => ?_⟩
    · simpa [writeArr] using hc
    · rw [c12] at hu; exact absurd hu (by decide)
    · simp [writeArr]
  by_cases c13 : instr >>> 12 = 13
  -- reserved: abort
  · unfold execInstr at h
    simp only [c13, reduceIte] at h
    exact Option.noConfusion h
  by_cases c14 : instr >>> 12 = 14
  -- LEA
  · unfold execInstr at h
    simp only [c14, reduceIte] at h
    injection h with h; subst h
    refine ⟨fun _ => (updateFlags_facts _ _ _ hb).2, fun _ => (updateFlags_facts _ _ _ hb).1,
      fun hu => ?_⟩
    rw [c14] at hu; exact absurd hu (by decide)
  by_cases c15 : instr >>> 12 = 15
  -- TRAP
  · by_cases t20 : instr &&& 0xFF = 0x20
    · unfold execInstr at h
      simp only [c15, t20, reduceIte] at h
      injection h with h; subst h
      refine ⟨fun hc => ?_, fun hu => ?_, fun _ => ?_⟩
      · simpa [writeArr] using hc
      · rw [c15] at hu; exact absurd hu (by decide)
      · simp [writeArr]
    by_cases t21 : instr &&& 0xFF = 0x21
    · unfold execInstr at h
      simp only [c15, t21, reduceIte] at h
      injection h with h; subst h
      refine ⟨fun hc => hc, fun hu => ?_, fun _ => rfl⟩
      rw [c15] at hu; exact absurd hu (by decide)
    by_cases t22 : instr &&& 0xFF = 0x22
    · unfold execInstr at h
      simp only [c15, t22, reduceIte] at h
      injection h with h; subst h
      refine ⟨fun hc => hc, fun hu => ?_, fun _ => rfl⟩
      rw [c15] at hu; exact absurd hu (by decide)
    by_cases t23 : instr &&& 0xFF = 0x23
    · unfold execInstr at h
      simp only [c15, t23, reduceIte] at h
      injection h with h; subst h
      refine ⟨fun hc => ?_, fun hu => ?_, fun _ => ?_⟩
      · simpa [writeArr] using hc
      · rw [c15] at hu; exact absurd hu (by decide)
      · simp [writeArr]
    by_cases t24 : instr &&& 0xFF = 0x24
    · unfold execInstr at h
      simp only [c15, t24, reduceIte] at h
      injection h with h; subst h
      refine ⟨fun hc => hc, fun hu => ?_, fun _ => rfl⟩
      rw [c15] at hu; exact absurd hu (by decide)
    by_cases t25 : instr &&& 0xFF = 0x25
    · unfold execInstr at h
      simp only [c15, t25, reduceIte] at h
      injection h with h; subst h
      refine ⟨fun hc => hc, fun hu => ?_, fun _ => rfl⟩
      rw [c15] at hu; exact absurd hu (by decide)
    -- unknown trap vector: fall through, no action
    · unfold execInstr at h
      simp only [c15, reduceIte] at h
      simp only [t20, t21, t22, t23, t24, t25, reduceIte] at h
      injection h with h; subst h
      refine ⟨fun hc => hc, fun hu => ?_, fun _ => rfl⟩
      rw [c15] at hu; exact absurd hu (by decide)
  -- no opcode matched: abort (unreachable for 16-bit words)
  · unfold execInstr at h
    simp only [c0, c1, c2, c3, c4, c5, c6, c7, c8, c9, c10, c11, c12, c13, c14, c15,
      reduceIte] at h
    exact Option.noConfusion h

/-- Witness for C6: executing ADD R0, R0, #1 (0x1021) from a state
whose condition register holds kPositive yields a state whose condition
register again holds one of the three flags, and equals `flagOf` of the
value written to R0. -/
theorem C6_witness :
    execInstr mC6 0x1021 = some mC6res ∧
    (mC6res.registers 9 = 1 ∨ mC6res.registers 9 = 2 ∨ mC6res.registers 9 = 4) ∧
    mC6res.registers 9 = flagOf (mC6res.registers 0) := by
  have hx : execInstr mC6 0x1021 = some mC6res := rfl
  have H := C6_thm mC6 mC6res 0x1021 hx
  exact ⟨hx, H.1 (Or.inl rfl), H.2.1 rfl⟩

end LC3
